import Mathlib

/-!
Verification of the `kmeanseval` package (`kmeanseval/evaluator.py`).

The module defines a single class, `KMeansEvaluator`, a facade over an
external clustering library.  At construction it fits one clustering model
per candidate `k` of a `k_range` and caches the fitted models in the
`_models` dictionary; `get_metrics` and the three plot methods then read
the cached models.

Shallow embedding conventions:
  * The external library (`sklearn.cluster.KMeans.fit_predict`,
    `sklearn.metrics.silhouette_score`, `sklearn.metrics.silhouette_samples`)
    is an opaque deterministic value of the structure `ExternalLib`; every
    theorem quantifies over it.  A fitted model is only ever read through
    its `inertia_` and `labels_` attributes, so `KMeansModel` has exactly
    those two fields.  The numeric results of the library are opaque to
    this code (it never computes with them, only shuttles them around);
    they are represented by `Int`.
  * Data sets are lists of integer points, `k_range` is a list of naturals
    (Python allows any iterable of ints here; the default is `range(2, 11)`).
  * The `_models` Python dict is an association list with Python's
    `dict.update` semantics (`dictInsert`: replace in place if the key is
    present, append otherwise) and Python indexing (`dictGet`).
  * `print` calls are modelled by a trace: `get_metrics` returns, besides
    its list of metric values, the list of `k` values at which the
    "invalid method supplied, defaulting to wss" warning was printed.
  * Python operations that can raise (`self._models[k]`,
    `self._k_range[0]` / `[-1]` on an empty range) return `Option`;
    `none` is an uncaught exception.
  * Matplotlib rendering is modelled by the data handed to it: the figure
    descriptions (`GenericPlot`, `SilhouettePlot`) record the series,
    limits, labels and titles the code passes to the plot calls.
-/

namespace KmeansEval

/-- A fitted clustering model, as seen by this package: the code reads only
the `inertia_` and `labels_` attributes of the object returned by the
external library. -/
structure KMeansModel where
  inertia : Int
  labels : List Nat
deriving DecidableEq

/-- The external library the package delegates to: `fitKMeans k data` stands
for `KMeans(n_clusters=k, **kwargs).fit_predict(data)` returning the fitted
model (the `**kwargs` are fixed inside the value), `silhouette_score` and
`silhouette_samples` for the two `sklearn.metrics` functions. -/
structure ExternalLib where
  fitKMeans : Nat → List (List Int) → KMeansModel
  silhouette_score : List (List Int) → List Nat → Int
  silhouette_samples : List (List Int) → List Nat → List Int

/-- Python `dict` update `models.update({k: model})`: replace the binding in
place when the key is present, append it otherwise. -/
def dictInsert : List (Nat × KMeansModel) → Nat → KMeansModel → List (Nat × KMeansModel)
  | [], k, v => [(k, v)]
  | (k', v') :: rest, k, v =>
    if k' = k then (k, v) :: rest else (k', v') :: dictInsert rest k v

/-- Python `dict` indexing `models[k]`: `none` is a `KeyError`. -/
def dictGet : List (Nat × KMeansModel) → Nat → Option KMeansModel
  | [], _ => none
  | (k', v) :: rest, k => if k' = k then some v else dictGet rest k

/-- The state of a `KMeansEvaluator` object: the three fields `__init__`
assigns. -/
structure KMeansEvaluator where
  _data : List (List Int)
  _k_range : List Nat
  _models : List (Nat × KMeansModel)
deriving DecidableEq

/-- The loop body of `_fit_models`: for each `k` of the range, fit a model
and add it to the dictionary. -/
def _fit_models_go (lib : ExternalLib) (data : List (List Int)) :
    List Nat → List (Nat × KMeansModel) → List (Nat × KMeansModel)
  | [], models => models
  | k :: ks, models =>
    _fit_models_go lib data ks (dictInsert models k (lib.fitKMeans k data))

/-- `KMeansEvaluator._fit_models`: the dictionary of fitted models, one per
`k` of the range. -/
def _fit_models (lib : ExternalLib) (data : List (List Int)) (k_range : List Nat) :
    List (Nat × KMeansModel) :=
  _fit_models_go lib data k_range []

/-- `KMeansEvaluator.__init__(data, k_range, **kwargs)`: store the data and
the range and fit the models. -/
def KMeansEvaluator.init (lib : ExternalLib) (data : List (List Int))
    (k_range : List Nat) : KMeansEvaluator :=
  { _data := data, _k_range := k_range, _models := _fit_models lib data k_range }

/-- The metric name `"wss"`, the default argument of `get_metrics`. -/
def wssName : String := "wss"

/-- The metric name `"silhouette_score"`. -/
def silScoreName : String := "silhouette_score"

/-- The metric name `"silhouette_sample"`. -/
def silSampleName : String := "silhouette_sample"

/-- The three metric names `get_metrics` recognises. -/
def validMetrics : List String := [wssName, silScoreName, silSampleName]

/-- The warning `get_metrics` prints when given an unrecognised metric
name. -/
def invalidMetricWarning : String := "invalid method supplied, defaulting to wss"

/-- One element of the list `get_metrics` returns: a scalar (`inertia_` or
a silhouette score) or the per-sample silhouette array. -/
inductive MetricValue where
  | scalar : Int → MetricValue
  | samples : List Int → MetricValue
deriving DecidableEq

/-- Python `min` over a sequence of ints: `none` on the empty sequence
(a `ValueError`). -/
def pymin : List Nat → Option Nat
  | [] => none
  | x :: xs => some (xs.foldl Nat.min x)

/-- The loop of `get_metrics`: iterate over the range; per `k`, look the
cached model up and compute the requested metric; an unrecognised metric
falls back to `inertia_`, printing the warning when `k` equals
`min(self._k_range)`.  Returns the metric list together with the list of
`k` values at which the warning was printed. -/
def get_metrics_go (lib : ExternalLib) (data : List (List Int))
    (models : List (Nat × KMeansModel)) (kmin : Option Nat) (metric : String) :
    List Nat → Option (List MetricValue × List Nat)
  | [] => some ([], [])
  | k :: ks =>
    match dictGet models k, get_metrics_go lib data models kmin metric ks with
    | some model, some (vs, ws) =>
      if metric = wssName then
        some (MetricValue.scalar model.inertia :: vs, ws)
      else if metric = silScoreName then
        some (MetricValue.scalar (lib.silhouette_score data model.labels) :: vs, ws)
      else if metric = silSampleName then
        some (MetricValue.samples (lib.silhouette_samples data model.labels) :: vs, ws)
      else
        some (MetricValue.scalar model.inertia :: vs,
          (if kmin = some k then [k] else []) ++ ws)
    | _, _ => none

/-- `KMeansEvaluator.get_metrics(metric)`. -/
def get_metrics (lib : ExternalLib) (ev : KMeansEvaluator) (metric : String) :
    Option (List MetricValue × List Nat) :=
  get_metrics_go lib ev._data ev._models (pymin ev._k_range) metric ev._k_range

/-- `KMeansEvaluator.get_metrics()` called without an argument: the default
for `metric` is `"wss"`. -/
def get_metrics_default (lib : ExternalLib) (ev : KMeansEvaluator) :
    Option (List MetricValue × List Nat) :=
  get_metrics lib ev wssName

/-- The figure `_generic_plot` renders: the series, axis labels, title and
layout parameters it hands to matplotlib. -/
structure GenericPlot where
  xs : List Nat
  ys : List MetricValue
  xlabel : String
  ylabel : String
  title : String
  figsize : Nat × Nat
  textsize : Nat
deriving DecidableEq

/-- The title f-string of `_generic_plot`. -/
def rangeTitle (title : String) (k0 klast : Nat) : String :=
  title ++ " for K = " ++ toString k0 ++ " through " ++ toString klast

/-- `KMeansEvaluator._generic_plot(metric, title, figsize, textsize)`: plot
the metric against the range.  The title indexes `self._k_range[0]` and
`self._k_range[-1]`, which raises `IndexError` (`none`) on an empty
range. -/
def _generic_plot (ev : KMeansEvaluator) (metric : List MetricValue)
    (title : String) (figsize : Nat × Nat) (textsize : Nat) : Option GenericPlot :=
  match ev._k_range.head?, ev._k_range.getLast? with
  | some k0, some klast =>
    some { xs := ev._k_range, ys := metric, xlabel := "k", ylabel := title,
           title := rangeTitle title k0 klast, figsize := figsize,
           textsize := textsize }
  | _, _ => none

/-- The y-axis label of `plot_elbow`. -/
def elbowTitle : String := "Within-cluster-sum of squared errors"

/-- The y-axis label of `plot_avg_silhouette_scores`. -/
def avgSilhouetteTitle : String := "Average silhouette score"

/-- `KMeansEvaluator.plot_elbow(figsize, textsize)`: fetch the wss metric
list and hand it to `_generic_plot`. -/
def plot_elbow (lib : ExternalLib) (ev : KMeansEvaluator)
    (figsize : Nat × Nat) (textsize : Nat) : Option GenericPlot :=
  match get_metrics lib ev wssName with
  | some (metric_list, _) => _generic_plot ev metric_list elbowTitle figsize textsize
  | none => none

/-- `KMeansEvaluator.plot_avg_silhouette_scores(figsize, textsize)`: fetch
the silhouette-score metric list and hand it to `_generic_plot`. -/
def plot_avg_silhouette_scores (lib : ExternalLib) (ev : KMeansEvaluator)
    (figsize : Nat × Nat) (textsize : Nat) : Option GenericPlot :=
  match get_metrics lib ev silScoreName with
  | some (metric_list, _) => _generic_plot ev metric_list avgSilhouetteTitle figsize textsize
  | none => none

/-- One filled band of a per-sample silhouette figure: the cluster number,
the lower y coordinate of the band, and the sorted silhouette values of the
samples of that cluster. -/
structure ClusterBand where
  cluster : Nat
  y_lower : Nat
  values : List Int
deriving DecidableEq

/-- One figure of `plot_silhouette_scores`: the `k` it is drawn for, the
axis limits, the red average line, the per-cluster bands and the title. -/
structure SilhouettePlot where
  k : Nat
  xlim : Int × Int
  ylim : Nat × Nat
  silhouette_avg : Int
  bands : List ClusterBand
  title : String
deriving DecidableEq

/-- The inner loop `for i in range(k_clusters)` of `plot_silhouette_scores`:
mask the sample values of cluster `i`, sort them, fill the band from
`y_lower`, and move `y_lower` past the band plus a 10-unit gap. -/
def silhouette_bands (sample_values : List Int) (labels : List Nat) :
    List Nat → Nat → List ClusterBand
  | [], _ => []
  | i :: is, y_lower =>
    let vals := ((labels.zip sample_values).filterMap
        (fun p => if p.1 = i then some p.2 else none)).mergeSort
        (fun a b => decide (a ≤ b))
    { cluster := i, y_lower := y_lower, values := vals } ::
      silhouette_bands sample_values labels is (y_lower + vals.length + 10)

/-- The title f-string of a per-sample silhouette figure. -/
def silhouetteTitle (k : Nat) : String :=
  "Silhouette plot for the various clusters for k = " ++ toString k

/-- The body of one iteration of `plot_silhouette_scores`: the figure drawn
for one `k` from the cached model's labels — fixed x limits `[-1, 1]`,
y limit `len(self._data) + (k_clusters + 1) * 10`, the average-silhouette
line, one band per cluster `i in range(k_clusters)` starting at
`y_lower = 10`, and the title. -/
def silhouettePlotFor (lib : ExternalLib) (data : List (List Int)) (k : Nat)
    (model : KMeansModel) : SilhouettePlot :=
  { k := k, xlim := (-1, 1), ylim := (0, data.length + (k + 1) * 10),
    silhouette_avg := lib.silhouette_score data model.labels,
    bands := silhouette_bands (lib.silhouette_samples data model.labels)
      model.labels (List.range k) 10,
    title := silhouetteTitle k }

/-- The outer loop of `plot_silhouette_scores`: one figure per `k` of the
range, drawn from the cached model's labels. -/
def plot_silhouette_go (lib : ExternalLib) (data : List (List Int))
    (models : List (Nat × KMeansModel)) : List Nat → Option (List SilhouettePlot)
  | [] => some []
  | k :: ks =>
    match dictGet models k, plot_silhouette_go lib data models ks with
    | some model, some ps => some (silhouettePlotFor lib data k model :: ps)
    | _, _ => none

/-- `KMeansEvaluator.plot_silhouette_scores(figsize, textsize)`. -/
def plot_silhouette_scores (lib : ExternalLib) (ev : KMeansEvaluator) :
    Option (List SilhouettePlot) :=
  plot_silhouette_go lib ev._data ev._models ev._k_range

/-- The chart-rendering operations the public interface exposes; there are
exactly these three. -/
inductive ChartOp where
  | elbowChart
  | avgSilhouetteChart
  | silhouetteChart
deriving DecidableEq

/-- What a chart operation renders: one generic figure, or one per-sample
silhouette figure per `k`. -/
inductive ChartOutput where
  | generic : GenericPlot → ChartOutput
  | perK : List SilhouettePlot → ChartOutput
deriving DecidableEq

/-- Dispatch a chart operation to the method that implements it. -/
def renderChart (lib : ExternalLib) (ev : KMeansEvaluator)
    (figsize : Nat × Nat) (textsize : Nat) : ChartOp → Option ChartOutput
  | ChartOp.elbowChart =>
    (plot_elbow lib ev figsize textsize).map ChartOutput.generic
  | ChartOp.avgSilhouetteChart =>
    (plot_avg_silhouette_scores lib ev figsize textsize).map ChartOutput.generic
  | ChartOp.silhouetteChart =>
    (plot_silhouette_scores lib ev).map ChartOutput.perK

/-- The `k` values a rendered chart iterates over: the x series of a
generic figure, the figure-per-`k` indices of the silhouette figures. -/
def chartKs : ChartOutput → List Nat
  | ChartOutput.generic p => p.xs
  | ChartOutput.perK ps => ps.map SilhouettePlot.k

/-- The public operations available on a constructed evaluator. -/
inductive EvalOp where
  | getMetricsOp : String → EvalOp
  | plotElbowOp : Nat × Nat → Nat → EvalOp
  | plotAvgSilhouetteOp : Nat × Nat → Nat → EvalOp
  | plotSilhouetteOp : EvalOp

/-- The result of a public operation. -/
inductive EvalOut where
  | metrics : Option (List MetricValue × List Nat) → EvalOut
  | chart : Option GenericPlot → EvalOut
  | charts : Option (List SilhouettePlot) → EvalOut
deriving DecidableEq

/-- Small-step semantics of a method call on the object: the output and the
object state after the call.  None of the method bodies assigns to a field
of `self`, so the state after the body is the state the body read. -/
def step (lib : ExternalLib) (ev : KMeansEvaluator) :
    EvalOp → EvalOut × KMeansEvaluator
  | EvalOp.getMetricsOp metric => (EvalOut.metrics (get_metrics lib ev metric), ev)
  | EvalOp.plotElbowOp figsize textsize =>
    (EvalOut.chart (plot_elbow lib ev figsize textsize), ev)
  | EvalOp.plotAvgSilhouetteOp figsize textsize =>
    (EvalOut.chart (plot_avg_silhouette_scores lib ev figsize textsize), ev)
  | EvalOp.plotSilhouetteOp => (EvalOut.charts (plot_silhouette_scores lib ev), ev)

/-- The naive direct loop the facade is claimed equivalent to (the shape of
`test_get_metrics` in `test_evaluator.py`): per `k` of the range, fit one
external-library model with the same parameters and read the requested
metric from it, with no cache in between. -/
def naive_direct_loop (lib : ExternalLib) (data : List (List Int))
    (k_range : List Nat) (metric : String) : List MetricValue :=
  k_range.map (fun k =>
    let model := lib.fitKMeans k data
    if metric = wssName then MetricValue.scalar model.inertia
    else if metric = silScoreName then
      MetricValue.scalar (lib.silhouette_score data model.labels)
    else MetricValue.samples (lib.silhouette_samples data model.labels))

/-- The value `get_metrics` appends for one `k` when the model cached for
`k` is `model`: a case split on the metric name, an unrecognised name
falling back to `inertia_`. -/
def metricEntry (lib : ExternalLib) (data : List (List Int)) (metric : String)
    (model : KMeansModel) : MetricValue :=
  if metric = wssName then MetricValue.scalar model.inertia
  else if metric = silScoreName then
    MetricValue.scalar (lib.silhouette_score data model.labels)
  else if metric = silSampleName then
    MetricValue.samples (lib.silhouette_samples data model.labels)
  else MetricValue.scalar model.inertia

/-- The `k` values at which one `get_metrics` call prints the invalid-metric
warning: none for a recognised metric, the occurrences of
`min(self._k_range)` otherwise. -/
def warnTrace (kr : List Nat) (metric : String) : List Nat :=
  if metric ∈ validMetrics then []
  else kr.filter (fun k => pymin kr = some k)

/-- A concrete external library used to instantiate the theorems: inertia
of the model for `k` is `k`, every sample is labelled by its index, the
silhouette score is `0` and the per-sample values are the labels. -/
def exLib0 : ExternalLib :=
  { fitKMeans := fun k data =>
      { inertia := (k : Int), labels := List.range data.length },
    silhouette_score := fun _ _ => 0,
    silhouette_samples := fun _ labels => labels.map (fun n => (n : Int)) }

/-- `exLib0` with a different silhouette-score function and the same
fitting function. -/
def exLib1 : ExternalLib :=
  { exLib0 with silhouette_score := fun _ _ => 1 }

/-- `exLib0` with a different fitting function and the same silhouette
functions. -/
def exLib2 : ExternalLib :=
  { exLib0 with fitKMeans := fun k data =>
      { inertia := (k : Int) + 100, labels := List.range data.length } }

/-- A concrete three-point data set. -/
def dataEx : List (List Int) := [[0], [1], [2]]

/-- A metric name outside the three recognised ones. -/
def badMetric : String := "bogus"

/-- A concrete evaluator over `dataEx` with `k_range = [2, 3]`. -/
def evW : KMeansEvaluator := KMeansEvaluator.init exLib0 dataEx [2, 3]

/-- The figure `plot_elbow` renders on `evW` with the default layout
arguments `figsize=(16, 8)`, `textsize=15`. -/
def genericPlotW : GenericPlot :=
  { xs := [2, 3],
    ys := [MetricValue.scalar 2, MetricValue.scalar 3],
    xlabel := "k", ylabel := elbowTitle,
    title := rangeTitle elbowTitle 2 3,
    figsize := (16, 8), textsize := 15 }

/-! ### Dictionary lemmas -/

theorem dictGet_insert (m : List (Nat × KMeansModel)) (k k' : Nat) (v : KMeansModel) :
    dictGet (dictInsert m k v) k' = if k = k' then some v else dictGet m k' := by
  induction m with
  | nil =>
    by_cases h : k = k' <;> simp [dictInsert, dictGet, h]
  | cons hd tl ih =>
    obtain ⟨k0, v0⟩ := hd
    by_cases h0 : k0 = k
    · subst h0
      by_cases h : k0 = k' <;> simp [dictInsert, dictGet, h]
    · by_cases h : k0 = k'
      · subst h
        simp [dictInsert, dictGet, h0, Ne.symm h0]
      · simp [dictInsert, dictGet, h0, h, ih]

theorem dictGet_fit_go (lib : ExternalLib) (data : List (List Int)) (ks : List Nat) :
    ∀ (models : List (Nat × KMeansModel)) (k : Nat),
      dictGet (_fit_models_go lib data ks models) k
        = if k ∈ ks then some (lib.fitKMeans k data) else dictGet models k := by
  induction ks with
  | nil =>
    intro models k
    simp [_fit_models_go]
  | cons k0 ks ih =>
    intro models k
    rw [_fit_models_go, ih, dictGet_insert]
    by_cases hk : k ∈ ks
    · simp [hk]
    · by_cases h0 : k0 = k
      · subst h0
        simp [hk]
      · simp [hk, h0, Ne.symm h0]

theorem dictGet_fit (lib : ExternalLib) (data : List (List Int)) (kr : List Nat)
    (k : Nat) :
    dictGet (_fit_models lib data kr) k
      = if k ∈ kr then some (lib.fitKMeans k data) else none := by
  rw [_fit_models, dictGet_fit_go]
  rfl

theorem dictInsert_fresh (m : List (Nat × KMeansModel)) (k : Nat) (v : KMeansModel)
    (h : dictGet m k = none) :
    dictInsert m k v = m ++ [(k, v)] := by
  induction m with
  | nil => rfl
  | cons hd tl ih =>
    obtain ⟨k0, v0⟩ := hd
    rw [dictGet] at h
    by_cases h0 : k0 = k
    · simp [h0] at h
    · rw [if_neg h0] at h
      simp [dictInsert, h0, ih h]

theorem dictGet_append_fresh (m : List (Nat × KMeansModel)) (k k' : Nat)
    (v : KMeansModel) (h : dictGet m k' = none) :
    dictGet (m ++ [(k, v)]) k' = if k = k' then some v else none := by
  induction m with
  | nil => simp [dictGet]
  | cons hd tl ih =>
    obtain ⟨k0, v0⟩ := hd
    rw [dictGet] at h
    by_cases h0 : k0 = k'
    · simp [h0] at h
    · rw [if_neg h0] at h
      simp [dictGet, h0, ih h]

theorem fit_models_go_nodup (lib : ExternalLib) (data : List (List Int))
    (ks : List Nat) :
    ∀ models, ks.Nodup → (∀ k ∈ ks, dictGet models k = none) →
      _fit_models_go lib data ks models
        = models ++ ks.map (fun k => (k, lib.fitKMeans k data)) := by
  induction ks with
  | nil =>
    intro models _ _
    simp [_fit_models_go]
  | cons k0 ks ih =>
    intro models hnd hfresh
    rw [_fit_models_go, dictInsert_fresh _ _ _ (hfresh k0 (by simp))]
    rw [ih (models ++ [(k0, lib.fitKMeans k0 data)]) hnd.of_cons]
    · simp
    · intro k hk
      rw [dictGet_append_fresh _ _ _ _ (hfresh k (List.mem_cons_of_mem k0 hk))]
      have hne : k0 ≠ k := by
        intro e
        exact (List.nodup_cons.mp hnd).1 (e ▸ hk)
      simp [hne]

theorem init_models_eq (lib : ExternalLib) (data : List (List Int)) (kr : List Nat)
    (hnd : kr.Nodup) :
    (KMeansEvaluator.init lib data kr)._models
      = kr.map (fun k => (k, lib.fitKMeans k data)) := by
  rw [KMeansEvaluator.init, _fit_models]
  rw [fit_models_go_nodup lib data kr [] hnd (fun k _ => rfl)]
  rfl

/-! ### `get_metrics` characterisation -/

theorem get_metrics_go_spec (lib : ExternalLib) (data : List (List Int))
    (models : List (Nat × KMeansModel)) (kmin : Option Nat) (metric : String)
    (ks : List Nat) (f : Nat → KMeansModel)
    (h : ∀ k ∈ ks, dictGet models k = some (f k)) :
    get_metrics_go lib data models kmin metric ks
      = some (ks.map (fun k => metricEntry lib data metric (f k)),
          if metric ∈ validMetrics then []
          else ks.filter (fun k => decide (kmin = some k))) := by
  induction ks with
  | nil => simp [get_metrics_go]
  | cons k0 ks ih =>
    rw [get_metrics_go, h k0 (by simp),
      ih (fun k hk => h k (List.mem_cons_of_mem k0 hk))]
    by_cases h1 : metric = wssName
    · simp [h1, metricEntry, validMetrics]
    · by_cases h2 : metric = silScoreName
      · have hw : ¬(silScoreName = wssName) := by decide
        simp [h1, h2, metricEntry, validMetrics, hw]
      · by_cases h3 : metric = silSampleName
        · have hw : ¬(silSampleName = wssName) := by decide
          have hs : ¬(silSampleName = silScoreName) := by decide
          simp [h1, h2, h3, metricEntry, validMetrics, hw, hs]
        · have hnv : metric ∉ validMetrics := by
            simp [validMetrics, h1, h2, h3]
          simp only [if_neg h1, if_neg h2, if_neg h3, if_neg hnv,
            metricEntry, List.filter_cons]
          by_cases h4 : kmin = some k0 <;>
            simp [h4, if_neg h1, if_neg h2, if_neg h3]

theorem get_metrics_init_eq (lib lib' : ExternalLib) (data : List (List Int))
    (kr : List Nat) (metric : String) :
    get_metrics lib' (KMeansEvaluator.init lib data kr) metric
      = some (kr.map (fun k => metricEntry lib' data metric (lib.fitKMeans k data)),
          warnTrace kr metric) := by
  rw [get_metrics, warnTrace]
  exact get_metrics_go_spec lib' data _ (pymin kr) metric kr
    (fun k => lib.fitKMeans k data)
    (fun k hk => by rw [show (KMeansEvaluator.init lib data kr)._models
      = _fit_models lib data kr from rfl, dictGet_fit, if_pos hk])

/-! ### No model is fit after construction: every post-construction result
is invariant under replacing the library's fitting function. -/

theorem get_metrics_go_fit_irrel (lib lib' : ExternalLib)
    (hs : lib.silhouette_score = lib'.silhouette_score)
    (hp : lib.silhouette_samples = lib'.silhouette_samples)
    (data : List (List Int)) (models : List (Nat × KMeansModel))
    (kmin : Option Nat) (metric : String) (ks : List Nat) :
    get_metrics_go lib data models kmin metric ks
      = get_metrics_go lib' data models kmin metric ks := by
  induction ks with
  | nil => rfl
  | cons k0 ks ih => rw [get_metrics_go, get_metrics_go, ih, hs, hp]

theorem get_metrics_fit_irrel (lib lib' : ExternalLib)
    (hs : lib.silhouette_score = lib'.silhouette_score)
    (hp : lib.silhouette_samples = lib'.silhouette_samples)
    (ev : KMeansEvaluator) (metric : String) :
    get_metrics lib ev metric = get_metrics lib' ev metric := by
  rw [get_metrics, get_metrics, get_metrics_go_fit_irrel lib lib' hs hp]

theorem silhouettePlotFor_fit_irrel (lib lib' : ExternalLib)
    (hs : lib.silhouette_score = lib'.silhouette_score)
    (hp : lib.silhouette_samples = lib'.silhouette_samples)
    (data : List (List Int)) (k : Nat) (model : KMeansModel) :
    silhouettePlotFor lib data k model = silhouettePlotFor lib' data k model := by
  rw [silhouettePlotFor, silhouettePlotFor, hs, hp]

theorem plot_silhouette_go_fit_irrel (lib lib' : ExternalLib)
    (hs : lib.silhouette_score = lib'.silhouette_score)
    (hp : lib.silhouette_samples = lib'.silhouette_samples)
    (data : List (List Int)) (models : List (Nat × KMeansModel)) (ks : List Nat) :
    plot_silhouette_go lib data models ks = plot_silhouette_go lib' data models ks := by
  induction ks with
  | nil => rfl
  | cons k0 ks ih =>
    rw [plot_silhouette_go, plot_silhouette_go, ih]
    cases hd : dictGet models k0 <;>
      cases hrec : plot_silhouette_go lib' data models ks <;>
      simp [hd, hrec, silhouettePlotFor_fit_irrel lib lib' hs hp]

theorem renderChart_fit_irrel (lib lib' : ExternalLib)
    (hs : lib.silhouette_score = lib'.silhouette_score)
    (hp : lib.silhouette_samples = lib'.silhouette_samples)
    (ev : KMeansEvaluator) (figsize : Nat × Nat) (textsize : Nat) (op : ChartOp) :
    renderChart lib ev figsize textsize op = renderChart lib' ev figsize textsize op := by
  cases op with
  | elbowChart =>
    rw [renderChart, renderChart, plot_elbow, plot_elbow,
      get_metrics_fit_irrel lib lib' hs hp]
  | avgSilhouetteChart =>
    rw [renderChart, renderChart, plot_avg_silhouette_scores,
      plot_avg_silhouette_scores, get_metrics_fit_irrel lib lib' hs hp]
  | silhouetteChart =>
    rw [renderChart, renderChart, plot_silhouette_scores, plot_silhouette_scores,
      plot_silhouette_go_fit_irrel lib lib' hs hp]

/-! ### Per-sample silhouette figures on a constructed evaluator -/

theorem plot_silhouette_go_spec (lib : ExternalLib) (data : List (List Int))
    (models : List (Nat × KMeansModel)) (ks : List Nat) (f : Nat → KMeansModel)
    (h : ∀ k ∈ ks, dictGet models k = some (f k)) :
    plot_silhouette_go lib data models ks
      = some (ks.map (fun k => silhouettePlotFor lib data k (f k))) := by
  induction ks with
  | nil => rfl
  | cons k0 ks ih =>
    rw [plot_silhouette_go, h k0 (by simp),
      ih (fun k hk => h k (List.mem_cons_of_mem k0 hk))]
    simp

theorem plot_silhouette_init_eq (lib lib' : ExternalLib) (data : List (List Int))
    (kr : List Nat) :
    plot_silhouette_scores lib' (KMeansEvaluator.init lib data kr)
      = some (kr.map (fun k => silhouettePlotFor lib' data k (lib.fitKMeans k data))) := by
  rw [plot_silhouette_scores]
  exact plot_silhouette_go_spec lib' data _ kr (fun k => lib.fitKMeans k data)
    (fun k hk => by rw [show (KMeansEvaluator.init lib data kr)._models
      = _fit_models lib data kr from rfl, dictGet_fit, if_pos hk])

/-! ### The minimum of the range -/

theorem foldl_min_of_le (l : List Nat) :
    ∀ a, (∀ x ∈ l, a ≤ x) → l.foldl Nat.min a = a := by
  induction l with
  | nil => intro a _; rfl
  | cons x xs ih =>
    intro a h
    have hm : Nat.min a x = a := Nat.min_eq_left (h x (by simp))
    rw [List.foldl_cons, hm]
    exact ih a (fun y hy => h y (List.mem_cons_of_mem x hy))

theorem pymin_sorted (k0 : Nat) (rest : List Nat)
    (h : ∀ x ∈ rest, k0 < x) :
    pymin (k0 :: rest) = some k0 := by
  rw [pymin, foldl_min_of_le rest k0 (fun x hx => Nat.le_of_lt (h x hx))]

theorem filter_min_sorted (kr : List Nat) (h : List.Sorted (· < ·) kr) :
    kr.filter (fun k => decide (pymin kr = some k)) = kr.take 1 := by
  cases kr with
  | nil => rfl
  | cons k0 rest =>
    have hlt : ∀ x ∈ rest, k0 < x := (List.sorted_cons.mp h).1
    have hmin : pymin (k0 :: rest) = some k0 := pymin_sorted k0 rest hlt
    rw [List.filter_cons]
    rw [if_pos (by simp [hmin])]
    have hnil : rest.filter (fun k => decide (pymin (k0 :: rest) = some k)) = [] := by
      rw [List.filter_eq_nil_iff]
      intro a ha
      simp only [hmin, decide_eq_true_eq, Option.some.injEq]
      exact Nat.ne_of_lt (hlt a ha)
    rw [hnil]
    rfl

/-! ### Generic plot lemmas -/

theorem _generic_plot_some (ev : KMeansEvaluator) (metric : List MetricValue)
    (title : String) (figsize : Nat × Nat) (textsize : Nat) (p : GenericPlot)
    (hp : _generic_plot ev metric title figsize textsize = some p) :
    p.xs = ev._k_range ∧ p.ys = metric := by
  rw [_generic_plot] at hp
  cases hh : ev._k_range.head? with
  | none =>
    rw [hh] at hp
    cases hl : ev._k_range.getLast? <;> rw [hl] at hp <;> simp at hp
  | some k0 =>
    cases hl : ev._k_range.getLast? with
    | none => rw [hh, hl] at hp; simp at hp
    | some klast =>
      rw [hh, hl] at hp
      injection hp with hp
      rw [← hp]
      exact ⟨rfl, rfl⟩

theorem _generic_plot_isSome (ev : KMeansEvaluator) (metric : List MetricValue)
    (title : String) (figsize : Nat × Nat) (textsize : Nat)
    (h : ev._k_range ≠ []) :
    (_generic_plot ev metric title figsize textsize).isSome = true := by
  obtain ⟨k0, hk0⟩ := Option.isSome_iff_exists.mp (List.head?_isSome.mpr h)
  obtain ⟨kl, hkl⟩ := Option.isSome_iff_exists.mp (List.getLast?_isSome.mpr h)
  rw [_generic_plot, hk0, hkl]
  rfl

theorem plot_elbow_some (lib : ExternalLib) (ev : KMeansEvaluator)
    (figsize : Nat × Nat) (textsize : Nat) (p : GenericPlot)
    (hp : plot_elbow lib ev figsize textsize = some p) :
    p.xs = ev._k_range ∧ Option.map Prod.fst (get_metrics lib ev wssName) = some p.ys := by
  rw [plot_elbow] at hp
  cases hm : get_metrics lib ev wssName with
  | none => rw [hm] at hp; simp at hp
  | some pair =>
    obtain ⟨vs, ws⟩ := pair
    rw [hm] at hp
    obtain ⟨hxs, hys⟩ := _generic_plot_some ev vs elbowTitle figsize textsize p hp
    exact ⟨hxs, by simp [hys]⟩

theorem plot_avg_some (lib : ExternalLib) (ev : KMeansEvaluator)
    (figsize : Nat × Nat) (textsize : Nat) (p : GenericPlot)
    (hp : plot_avg_silhouette_scores lib ev figsize textsize = some p) :
    p.xs = ev._k_range ∧
      Option.map Prod.fst (get_metrics lib ev silScoreName) = some p.ys := by
  rw [plot_avg_silhouette_scores] at hp
  cases hm : get_metrics lib ev silScoreName with
  | none => rw [hm] at hp; simp at hp
  | some pair =>
    obtain ⟨vs, ws⟩ := pair
    rw [hm] at hp
    obtain ⟨hxs, hys⟩ := _generic_plot_some ev vs avgSilhouetteTitle figsize textsize p hp
    exact ⟨hxs, by simp [hys]⟩

/-! ## The claims -/

/-- C1: for every data set and every duplicate-free `k_range` (every Python
`range` is duplicate-free), constructing a `KMeansEvaluator` fits exactly
one clustering model per candidate `k` of `k_range` and stores it in the
`_models` dictionary keyed by `k`; and every subsequent `get_metrics` call
and every plot call reuses the model cached for `k` without fitting a new
model: their results are invariant under replacing the library's fitting
function by an arbitrary other one (only the silhouette functions, which
are applied to cached models, matter after construction). -/
theorem one_model_fit_per_k_cached_and_reused
    (lib lib' : ExternalLib) (data : List (List Int)) (kr : List Nat)
    (metric : String) (figsize : Nat × Nat) (textsize : Nat)
    (hnd : kr.Nodup)
    (hs : lib.silhouette_score = lib'.silhouette_score)
    (hp : lib.silhouette_samples = lib'.silhouette_samples) :
    (KMeansEvaluator.init lib data kr)._models
        = kr.map (fun k => (k, lib.fitKMeans k data)) ∧
    get_metrics lib' (KMeansEvaluator.init lib data kr) metric
        = get_metrics lib (KMeansEvaluator.init lib data kr) metric ∧
    (∀ op : ChartOp,
      renderChart lib' (KMeansEvaluator.init lib data kr) figsize textsize op
        = renderChart lib (KMeansEvaluator.init lib data kr) figsize textsize op) := by
  refine ⟨init_models_eq lib data kr hnd, ?_, ?_⟩
  · exact get_metrics_fit_irrel lib' lib hs.symm hp.symm _ metric
  · intro op
    exact renderChart_fit_irrel lib' lib hs.symm hp.symm _ figsize textsize op

/-- Witness for C1: `exLib2` differs from `exLib0` exactly in the fitting
function; on the evaluator constructed with `exLib0` over `dataEx` and
`k_range = [2, 3]` both libraries give the same `get_metrics` result. -/
theorem one_model_fit_per_k_cached_and_reused_witness :
    (KMeansEvaluator.init exLib0 dataEx [2, 3])._models
        = [2, 3].map (fun k => (k, exLib0.fitKMeans k dataEx)) ∧
    get_metrics exLib2 (KMeansEvaluator.init exLib0 dataEx [2, 3]) wssName
        = get_metrics exLib0 (KMeansEvaluator.init exLib0 dataEx [2, 3]) wssName ∧
    (∀ op : ChartOp,
      renderChart exLib2 (KMeansEvaluator.init exLib0 dataEx [2, 3]) (16, 8) 15 op
        = renderChart exLib0 (KMeansEvaluator.init exLib0 dataEx [2, 3]) (16, 8) 15 op) :=
  one_model_fit_per_k_cached_and_reused exLib0 exLib2 dataEx [2, 3] wssName
    (16, 8) 15 (by decide) rfl rfl

/-- C2 is false as stated: the silhouette metrics are not computed at
construction time.  `__init__` computes and stores only the fitted models
(inertia and labels); `get_metrics('silhouette_score')` computes the score
at call time.  Concretely: `exLib1` agrees with `exLib0` on the fitting
function and on `silhouette_samples` and differs only in
`silhouette_score`, yet on the very same constructed evaluator the two
libraries give different `get_metrics('silhouette_score')` results — so
the result is not a stored value retrieved from the constructed state. -/
theorem silhouette_not_precomputed_counterexample :
    exLib0.fitKMeans = exLib1.fitKMeans ∧
    exLib0.silhouette_samples = exLib1.silhouette_samples ∧
    get_metrics exLib0 (KMeansEvaluator.init exLib0 dataEx [2]) silScoreName
      ≠ get_metrics exLib1 (KMeansEvaluator.init exLib0 dataEx [2]) silScoreName := by
  refine ⟨rfl, rfl, ?_⟩
  decide

/-- C2 amended: at construction the evaluator computes and caches, per
candidate `k`, the fitted model — its inertia and labels.
`get_metrics('wss')` only retrieves the stored inertia (the call-time
library is not consulted at all), while the silhouette score and the
per-sample silhouette values are computed on each call by the library from
the stored data and the cached labels, without refitting any model. -/
theorem inertia_precomputed_silhouettes_computed_per_call
    (lib lib' : ExternalLib) (data : List (List Int)) (kr : List Nat) :
    get_metrics lib' (KMeansEvaluator.init lib data kr) wssName
      = some (kr.map (fun k => MetricValue.scalar (lib.fitKMeans k data).inertia), []) ∧
    get_metrics lib' (KMeansEvaluator.init lib data kr) silScoreName
      = some (kr.map (fun k =>
          MetricValue.scalar (lib'.silhouette_score data (lib.fitKMeans k data).labels)), []) ∧
    get_metrics lib' (KMeansEvaluator.init lib data kr) silSampleName
      = some (kr.map (fun k =>
          MetricValue.samples (lib'.silhouette_samples data (lib.fitKMeans k data).labels)), []) := by
  have h21 : ¬(silScoreName = wssName) := by decide
  have h31 : ¬(silSampleName = wssName) := by decide
  have h32 : ¬(silSampleName = silScoreName) := by decide
  refine ⟨?_, ?_, ?_⟩
  · rw [get_metrics_init_eq]
    simp [metricEntry, warnTrace, validMetrics]
  · rw [get_metrics_init_eq]
    simp [metricEntry, warnTrace, validMetrics, h21]
  · rw [get_metrics_init_eq]
    simp [metricEntry, warnTrace, validMetrics, h31, h32]

/-- C3: on a constructed evaluator, for each of the three recognised
metrics, `get_metrics` returns one entry per `k` of `k_range`, in
`k_range` iteration order; the entry for `k` is the metric evaluated on
the model cached for `k` (for `'wss'`, the cached model's `inertia_`); and
the default metric is `'wss'`. -/
theorem get_metrics_one_entry_per_k_in_order
    (lib : ExternalLib) (data : List (List Int)) (kr : List Nat) :
    (∀ k ∈ kr, dictGet (KMeansEvaluator.init lib data kr)._models k
        = some (lib.fitKMeans k data)) ∧
    get_metrics lib (KMeansEvaluator.init lib data kr) wssName
      = some (kr.map (fun k => MetricValue.scalar (lib.fitKMeans k data).inertia), []) ∧
    get_metrics lib (KMeansEvaluator.init lib data kr) silScoreName
      = some (kr.map (fun k =>
          MetricValue.scalar (lib.silhouette_score data (lib.fitKMeans k data).labels)), []) ∧
    get_metrics lib (KMeansEvaluator.init lib data kr) silSampleName
      = some (kr.map (fun k =>
          MetricValue.samples (lib.silhouette_samples data (lib.fitKMeans k data).labels)), []) ∧
    get_metrics_default lib (KMeansEvaluator.init lib data kr)
      = get_metrics lib (KMeansEvaluator.init lib data kr) wssName := by
  have h21 : ¬(silScoreName = wssName) := by decide
  have h31 : ¬(silSampleName = wssName) := by decide
  have h32 : ¬(silSampleName = silScoreName) := by decide
  refine ⟨?_, ?_, ?_, ?_, rfl⟩
  · intro k hk
    rw [show (KMeansEvaluator.init lib data kr)._models = _fit_models lib data kr
      from rfl, dictGet_fit, if_pos hk]
  · rw [get_metrics_init_eq]
    simp [metricEntry, warnTrace, validMetrics]
  · rw [get_metrics_init_eq]
    simp [metricEntry, warnTrace, validMetrics, h21]
  · rw [get_metrics_init_eq]
    simp [metricEntry, warnTrace, validMetrics, h31, h32]

/-- Witness for C3 at `exLib0`, `dataEx`, `k_range = [2, 3]`, `k = 2`. -/
theorem get_metrics_one_entry_per_k_in_order_witness :
    dictGet (KMeansEvaluator.init exLib0 dataEx [2, 3])._models 2
      = some (exLib0.fitKMeans 2 dataEx) :=
  (get_metrics_one_entry_per_k_in_order exLib0 dataEx [2, 3]).1 2 (by decide)

/-- C4: the facade is equivalent to the naive direct loop over the external
library.  For each recognised metric, the list `get_metrics` returns on a
constructed evaluator equals the list obtained by looping over `k_range`,
fitting one model per `k` with the same parameters (the same library
value), and reading the same metric from it. -/
theorem facade_equals_naive_direct_loop
    (lib : ExternalLib) (data : List (List Int)) (kr : List Nat) (metric : String)
    (h : metric ∈ validMetrics) :
    get_metrics lib (KMeansEvaluator.init lib data kr) metric
      = some (naive_direct_loop lib data kr metric, []) := by
  have h21 : ¬(silScoreName = wssName) := by decide
  have h31 : ¬(silSampleName = wssName) := by decide
  have h32 : ¬(silSampleName = silScoreName) := by decide
  rw [get_metrics_init_eq, warnTrace, if_pos h]
  have h3 : metric = wssName ∨ metric = silScoreName ∨ metric = silSampleName := by
    simpa [validMetrics] using h
  rcases h3 with h3 | h3 | h3 <;> subst h3 <;>
    simp [metricEntry, naive_direct_loop, h21, h31, h32]

/-- Witness for C4 at `exLib0`, `dataEx`, `k_range = [2, 3]`,
`metric = 'silhouette_sample'`. -/
theorem facade_equals_naive_direct_loop_witness :
    get_metrics exLib0 (KMeansEvaluator.init exLib0 dataEx [2, 3]) silSampleName
      = some (naive_direct_loop exLib0 dataEx [2, 3] silSampleName, []) :=
  facade_equals_naive_direct_loop exLib0 dataEx [2, 3] silSampleName (by decide)

/-- C5: the chart renderers reuse the cached metric path rather than
recomputing independently: whenever `plot_elbow` renders a figure, its
y-series is the list returned by `get_metrics('wss')`, and whenever
`plot_avg_silhouette_scores` renders a figure, its y-series is the list
returned by `get_metrics('silhouette_score')`. -/
theorem charts_reuse_get_metrics_series
    (lib : ExternalLib) (ev : KMeansEvaluator) (figsize : Nat × Nat) (textsize : Nat) :
    (∀ p, plot_elbow lib ev figsize textsize = some p →
      Option.map Prod.fst (get_metrics lib ev wssName) = some p.ys) ∧
    (∀ p, plot_avg_silhouette_scores lib ev figsize textsize = some p →
      Option.map Prod.fst (get_metrics lib ev silScoreName) = some p.ys) :=
  ⟨fun p hp => (plot_elbow_some lib ev figsize textsize p hp).2,
   fun p hp => (plot_avg_some lib ev figsize textsize p hp).2⟩

/-- Witness for C5: the elbow figure on `evW` carries exactly the
`get_metrics('wss')` series. -/
theorem charts_reuse_get_metrics_series_witness :
    Option.map Prod.fst (get_metrics exLib0 evW wssName) = some genericPlotW.ys :=
  (charts_reuse_get_metrics_series exLib0 evW (16, 8) 15).1 genericPlotW (by decide)

/-- C6: the public interface exposes exactly three chart-rendering
operations — the wss elbow plot, the average-silhouette plot and the
per-sample silhouette plots — and on a constructed evaluator each of them
iterates over the `k_range` fixed at construction: every successful render
iterates over exactly that range. -/
theorem exactly_three_chart_ops_iterate_k_range
    (lib : ExternalLib) (data : List (List Int)) (kr : List Nat)
    (figsize : Nat × Nat) (textsize : Nat) :
    (∀ op : ChartOp, op = ChartOp.elbowChart ∨ op = ChartOp.avgSilhouetteChart
        ∨ op = ChartOp.silhouetteChart) ∧
    (∀ op out,
      renderChart lib (KMeansEvaluator.init lib data kr) figsize textsize op
        = some out → chartKs out = kr) := by
  constructor
  · intro op
    cases op
    · exact Or.inl rfl
    · exact Or.inr (Or.inl rfl)
    · exact Or.inr (Or.inr rfl)
  · intro op out hout
    cases op with
    | elbowChart =>
      rw [renderChart] at hout
      cases hpe : plot_elbow lib (KMeansEvaluator.init lib data kr) figsize textsize with
      | none => rw [hpe] at hout; simp at hout
      | some p =>
        rw [hpe] at hout
        simp only [Option.map_some'] at hout
        injection hout with hout
        rw [← hout, chartKs]
        exact (plot_elbow_some lib _ figsize textsize p hpe).1
    | avgSilhouetteChart =>
      rw [renderChart] at hout
      cases hpe : plot_avg_silhouette_scores lib (KMeansEvaluator.init lib data kr)
          figsize textsize with
      | none => rw [hpe] at hout; simp at hout
      | some p =>
        rw [hpe] at hout
        simp only [Option.map_some'] at hout
        injection hout with hout
        rw [← hout, chartKs]
        exact (plot_avg_some lib _ figsize textsize p hpe).1
    | silhouetteChart =>
      rw [renderChart, plot_silhouette_init_eq] at hout
      simp only [Option.map_some'] at hout
      injection hout with hout
      rw [← hout, chartKs, List.map_map]
      exact List.map_id''
        (fun k => rfl) kr

/-- Witness for C6: the rendered elbow chart on `dataEx` with
`k_range = [2, 3]` iterates over `[2, 3]`. -/
theorem exactly_three_chart_ops_iterate_k_range_witness :
    chartKs (ChartOutput.generic genericPlotW) = [2, 3] :=
  (exactly_three_chart_ops_iterate_k_range exLib0 dataEx [2, 3] (16, 8) 15).2
    ChartOp.elbowChart (ChartOutput.generic genericPlotW) (by decide)

/-- C7 is false as stated: the code is not free of input validation and
does not succeed unconditionally.  `get_metrics` contains an explicit
branch handling an unrecognised metric string (the source comment reads
"handle the case where user passes a bad value for 'metric'"): on the
metric `"bogus"` it prints a warning, observable in the warning trace; and
on an evaluator built with an empty `k_range`, `plot_elbow` raises
(an `IndexError` from `self._k_range[0]`), i.e. does not succeed. -/
theorem no_error_handling_counterexample :
    Option.map Prod.snd
        (get_metrics exLib0 (KMeansEvaluator.init exLib0 dataEx [2, 3]) badMetric)
      = some [2] ∧
    plot_elbow exLib0 (KMeansEvaluator.init exLib0 dataEx []) (16, 8) 15 = none := by
  constructor
  · decide
  · rfl

/-- C7 amended: the only failure-handling of the code's own is the
`get_metrics` fallback branch for an unrecognised metric string (which
defaults to the cached inertia and prints a warning); apart from it no
operation validates its inputs: on a constructed evaluator `get_metrics`
always succeeds, it emits no warning for recognised metrics, the two
generic plots succeed whenever `k_range` is nonempty, and the per-sample
silhouette plot always succeeds; everything else is delegated to the
external library. -/
theorem operations_total_with_one_metric_fallback
    (lib : ExternalLib) (data : List (List Int)) (kr : List Nat) (metric : String)
    (figsize : Nat × Nat) (textsize : Nat) :
    (get_metrics lib (KMeansEvaluator.init lib data kr) metric).isSome = true ∧
    (metric ∈ validMetrics →
      Option.map Prod.snd (get_metrics lib (KMeansEvaluator.init lib data kr) metric)
        = some []) ∧
    (kr ≠ [] →
      (plot_elbow lib (KMeansEvaluator.init lib data kr) figsize textsize).isSome
          = true ∧
      (plot_avg_silhouette_scores lib (KMeansEvaluator.init lib data kr)
          figsize textsize).isSome = true) ∧
    (plot_silhouette_scores lib (KMeansEvaluator.init lib data kr)).isSome = true := by
  refine ⟨?_, ?_, ?_, ?_⟩
  · rw [get_metrics_init_eq]
    rfl
  · intro hv
    rw [get_metrics_init_eq]
    simp [warnTrace, hv]
  · intro hne
    constructor
    · rw [plot_elbow, get_metrics_init_eq]
      exact _generic_plot_isSome (KMeansEvaluator.init lib data kr) _ elbowTitle
        figsize textsize hne
    · rw [plot_avg_silhouette_scores, get_metrics_init_eq]
      exact _generic_plot_isSome (KMeansEvaluator.init lib data kr) _ avgSilhouetteTitle
        figsize textsize hne
  · rw [plot_silhouette_init_eq lib lib data kr]
    rfl

/-- Witness for C7 (amended) on `dataEx`, `k_range = [2, 3]`. -/
theorem operations_total_with_one_metric_fallback_witness :
    (plot_elbow exLib0 (KMeansEvaluator.init exLib0 dataEx [2, 3]) (16, 8) 15).isSome
      = true :=
  ((operations_total_with_one_metric_fallback exLib0 dataEx [2, 3] wssName
    (16, 8) 15).2.2.1 (by decide)).1

/-- C8: for every metric string outside the three recognised ones,
`get_metrics` does not raise: it returns exactly the same metric list as
`get_metrics('wss')` (the cached inertia per `k`), and it prints the
warning only at `min(k_range)` — the occurrences of the minimum in the
range, which for a strictly increasing `k_range` (every real Python
`range`) is exactly the first `k`. -/
theorem invalid_metric_falls_back_to_wss
    (lib : ExternalLib) (data : List (List Int)) (kr : List Nat) (metric : String)
    (h : metric ∉ validMetrics) :
    Option.map Prod.fst (get_metrics lib (KMeansEvaluator.init lib data kr) metric)
      = Option.map Prod.fst (get_metrics lib (KMeansEvaluator.init lib data kr) wssName) ∧
    Option.map Prod.snd (get_metrics lib (KMeansEvaluator.init lib data kr) metric)
      = some (kr.filter (fun k => decide (pymin kr = some k))) ∧
    (List.Sorted (· < ·) kr →
      Option.map Prod.snd (get_metrics lib (KMeansEvaluator.init lib data kr) metric)
        = some (kr.take 1)) := by
  have h1 : ¬(metric = wssName) := fun e => h (by simp [validMetrics, e])
  have h2 : ¬(metric = silScoreName) := fun e => h (by simp [validMetrics, e])
  have h3 : ¬(metric = silSampleName) := fun e => h (by simp [validMetrics, e])
  refine ⟨?_, ?_, ?_⟩
  · rw [get_metrics_init_eq, get_metrics_init_eq]
    simp [metricEntry, h1, h2, h3]
  · rw [get_metrics_init_eq]
    simp [warnTrace, h]
  · intro hsorted
    rw [get_metrics_init_eq]
    simp only [warnTrace, if_neg h, Option.map_some']
    rw [filter_min_sorted kr hsorted]

/-- Witness for C8 at metric `"bogus"`, `k_range = [2, 3]`: the warning is
printed exactly at the first (minimum) `k = 2`. -/
theorem invalid_metric_falls_back_to_wss_witness :
    Option.map Prod.snd
        (get_metrics exLib0 (KMeansEvaluator.init exLib0 dataEx [2, 3]) badMetric)
      = some ([2, 3].take 1) :=
  (invalid_metric_falls_back_to_wss exLib0 dataEx [2, 3] badMetric (by decide)).2.2
    (by decide)

/-- C9: every public operation after construction is state-preserving:
`get_metrics` and the three plot methods leave `_data`, `_k_range` and
`_models` unchanged, so a `get_metrics` call with a given metric performed
after any other public operation returns the same result as before it. -/
theorem public_operations_preserve_state
    (lib : ExternalLib) (ev : KMeansEvaluator) (op : EvalOp) (metric : String) :
    ((step lib ev op).2)._data = ev._data ∧
    ((step lib ev op).2)._k_range = ev._k_range ∧
    ((step lib ev op).2)._models = ev._models ∧
    (step lib (step lib ev op).2 (EvalOp.getMetricsOp metric)).1
      = (step lib ev (EvalOp.getMetricsOp metric)).1 := by
  cases op <;> exact ⟨rfl, rfl, rfl, rfl⟩

/-- C10: for an empty `k_range`, construction succeeds with an empty
`_models` dictionary and `get_metrics` returns the empty list for every
metric, but `plot_elbow` and `plot_avg_silhouette_scores` fail, because
`_generic_plot` indexes `self._k_range[0]` and `self._k_range[-1]` for its
title, which is undefined on an empty range. -/
theorem empty_k_range_breaks_generic_plots
    (lib : ExternalLib) (data : List (List Int)) (metric : String)
    (figsize : Nat × Nat) (textsize : Nat) :
    (KMeansEvaluator.init lib data [])._models = [] ∧
    get_metrics lib (KMeansEvaluator.init lib data []) metric = some ([], []) ∧
    plot_elbow lib (KMeansEvaluator.init lib data []) figsize textsize = none ∧
    plot_avg_silhouette_scores lib (KMeansEvaluator.init lib data []) figsize textsize
      = none ∧
    (∀ ys title, _generic_plot (KMeansEvaluator.init lib data []) ys title
        figsize textsize = none) :=
  ⟨rfl, rfl, rfl, rfl, fun _ _ => rfl⟩

end KmeansEval
